import Mathlib

/-!
Verification of the MCP JSON-RPC dispatchers of `unity-ai-orchestrator`:
`Assets/MCP/blender_mcp_server.py` (class `BlenderMCPServer`) and
`Assets/MCP/github_mcp_example.py` (class `GitHubMCPServer`).

The embedding models decoded JSON values, the JSON-RPC request/response
envelopes, both servers' dispatch logic (`handle_request`, `initialize`,
`list_tools`, `call_tool`, `error_response`) and both stdio main loops.
Handlers that act on the external world (Blender's `bpy` data, the GitHub
REST API, Python `exec`) are the external-collaborator boundary of the
design; they are modelled as oracle parameters, except the handlers whose
bodies the claims inspect (`delete_object`, `execute_python`,
`create_issue`), which are translated from the source.
-/

namespace MCPV

/-- Decoded JSON values (the result of Python's `json.loads`).
`num` holds JSON integers; `fnum` holds JSON numbers written with a
fractional part (Python floats), kept exact as rationals — every float
literal in the source (`0.5`, `66.0`, `0.02`, `0.0`) is decimal. -/
inductive Json where
  | null : Json
  | bool : Bool → Json
  | num : Int → Json
  | fnum : Rat → Json
  | str : String → Json
  | arr : List Json → Json
  | obj : List (String × Json) → Json

/-- Python dict `.get(key)`: first binding of `key`, if any. -/
def Args.get (args : List (String × Json)) (k : String) : Option Json :=
  List.lookup k args

/-- Spaces for pretty-printed indentation. -/
def spacesN (n : Nat) : String :=
  String.mk (List.replicate n ' ')

/-- Decimal rendering of the fractional digits of a rational, with fuel.
Models how Python prints the (decimal) float literals of the source. -/
def fracDigits : Nat → Nat → Nat → String
  | 0, _, _ => ""
  | _, _, 0 => ""
  | Nat.succ fuel, rem, den =>
    let rem10 := rem * 10
    let digit := rem10 / den
    let rem2 := rem10 % den
    if rem2 = 0 then toString digit
    else toString digit ++ fracDigits fuel rem2 den

/-- Python's rendering of a float value that is an exact decimal:
integer part, a dot, then the fractional digits (`66.0`, `0.5`, `0.02`). -/
def ratDecimal (x : Rat) : String :=
  let sgn := if x.num < 0 then "-" else ""
  let a := x.num.natAbs
  let d := x.den
  let ip := a / d
  let rem := a % d
  if rem = 0 then sgn ++ toString ip ++ ".0"
  else sgn ++ toString ip ++ "." ++ fracDigits 30 rem d

/-- JSON string escaping for `json.dumps` (quote, backslash, control chars;
`ensure_ascii=False` leaves other characters as they are). -/
def escChar (c : Char) : String :=
  if c = '"' then "\\\""
  else if c = '\\' then "\\\\"
  else if c = '\n' then "\\n"
  else if c = '\t' then "\\t"
  else if c = '\r' then "\\r"
  else String.mk [c]

/-- A JSON string literal as `json.dumps` writes it. -/
def jsonQuote (s : String) : String :=
  "\"" ++ s.data.foldl (fun acc c => acc ++ escChar c) "" ++ "\""

mutual

/-- Python `repr` of a decoded-JSON value (used by `str` on containers). -/
def pyRepr : Json → String
  | Json.null => "None"
  | Json.bool true => "True"
  | Json.bool false => "False"
  | Json.num n => toString n
  | Json.fnum x => ratDecimal x
  | Json.str s => "\x27" ++ s ++ "\x27"
  | Json.arr xs => "[" ++ pyReprList xs ++ "]"
  | Json.obj fs => "\x7b" ++ pyReprFields fs ++ "\x7d"

/-- `repr` of list elements, comma-separated. -/
def pyReprList : List Json → String
  | [] => ""
  | [x] => pyRepr x
  | x :: xs => pyRepr x ++ ", " ++ pyReprList xs

/-- `repr` of dict items, comma-separated. -/
def pyReprFields : List (String × Json) → String
  | [] => ""
  | [(k, v)] => "\x27" ++ k ++ "\x27: " ++ pyRepr v
  | (k, v) :: fs => "\x27" ++ k ++ "\x27: " ++ pyRepr v ++ ", " ++ pyReprFields fs

end

/-- Python `str()` of a decoded-JSON value, as interpolated by f-strings:
identity on strings, `repr`-like on everything else. -/
def pyStr (j : Json) : String :=
  match j with
  | Json.str s => s
  | j => pyRepr j

/-- Python truthiness of a decoded-JSON value (`None`, `False`, `0`,
`0.0`, `""`, `[]` and `\x7b\x7d` are falsy). -/
def pyTruthy : Json → Bool
  | Json.null => false
  | Json.bool b => b
  | Json.num n => n != 0
  | Json.fnum x => x != 0
  | Json.str s => s != ""
  | Json.arr xs => !xs.isEmpty
  | Json.obj fs => !fs.isEmpty

/-- Whether `p` is a prefix of `c`, on character lists. -/
def listPrefix : List Char → List Char → Bool
  | [], _ => true
  | _ :: _, [] => false
  | p :: ps, c :: cs => p == c && listPrefix ps cs

/-- Whether `pat` occurs inside the haystack, on character lists. -/
def listContains : List Char → List Char → Bool
  | [], pat => pat.isEmpty
  | h :: hs, pat => listPrefix pat (h :: hs) || listContains hs pat

/-- Python `pattern in s` on strings: substring test (an empty pattern
is contained in everything). -/
def strContains (s pat : String) : Bool :=
  listContains s.data pat.data

mutual

/-- `json.dumps(v, ensure_ascii=False)`: compact one-line serialization
with Python's default separators. -/
def dumpsC : Json → String
  | Json.null => "null"
  | Json.bool true => "true"
  | Json.bool false => "false"
  | Json.num n => toString n
  | Json.fnum x => ratDecimal x
  | Json.str s => jsonQuote s
  | Json.arr xs => "[" ++ dumpsCList xs ++ "]"
  | Json.obj fs => "\x7b" ++ dumpsCFields fs ++ "\x7d"

/-- Compact serialization of array elements. -/
def dumpsCList : List Json → String
  | [] => ""
  | [x] => dumpsC x
  | x :: xs => dumpsC x ++ ", " ++ dumpsCList xs

/-- Compact serialization of object members. -/
def dumpsCFields : List (String × Json) → String
  | [] => ""
  | [(k, v)] => jsonQuote k ++ ": " ++ dumpsC v
  | (k, v) :: fs => jsonQuote k ++ ": " ++ dumpsC v ++ ", " ++ dumpsCFields fs

end

mutual

/-- `json.dumps(v, indent=2)`: pretty-printed serialization. The argument
is the current indentation depth (the depth of the closing bracket). -/
def dumpsI : Nat → Json → String
  | _, Json.null => "null"
  | _, Json.bool true => "true"
  | _, Json.bool false => "false"
  | _, Json.num n => toString n
  | _, Json.fnum x => ratDecimal x
  | _, Json.str s => jsonQuote s
  | _, Json.arr [] => "[]"
  | ind, Json.arr (x :: xs) =>
    "[\n" ++ dumpsIList (ind + 2) (x :: xs) ++ "\n" ++ spacesN ind ++ "]"
  | _, Json.obj [] => "\x7b\x7d"
  | ind, Json.obj (f :: fs) =>
    "\x7b\n" ++ dumpsIFields (ind + 2) (f :: fs) ++ "\n" ++ spacesN ind ++ "\x7d"

/-- Pretty-printed array elements, one per line. -/
def dumpsIList : Nat → List Json → String
  | _, [] => ""
  | ind, [x] => spacesN ind ++ dumpsI ind x
  | ind, x :: xs => spacesN ind ++ dumpsI ind x ++ ",\n" ++ dumpsIList ind xs

/-- Pretty-printed object members, one per line. -/
def dumpsIFields : Nat → List (String × Json) → String
  | _, [] => ""
  | ind, [(k, v)] => spacesN ind ++ jsonQuote k ++ ": " ++ dumpsI ind v
  | ind, (k, v) :: fs =>
    spacesN ind ++ jsonQuote k ++ ": " ++ dumpsI ind v ++ ",\n" ++ dumpsIFields ind fs

end

/-- A parsed JSON-RPC request, at the granularity the servers read it:
`method = request.get("method", "")`, `id = request.get("id")` (so a
missing or null id is `Json.null`, exactly as Python's `None`), and the
two fields of `params` that `call_tool` reads
(`params.get("name", "")` and `params.get("arguments", \x7b\x7d)`). -/
structure Request where
  method : String
  paramsName : String
  paramsArguments : List (String × Json)
  id : Json

/-- The `error` member of a failure envelope: `code`, `message`, and the
optional diagnostic `data`. -/
structure RpcError where
  code : Int
  message : String
  data : Option String

/-- A JSON-RPC response object as the servers build them. `id = none`
means the `"id"` key is absent from the object (this happens only in the
Blender server's `notifications/initialized` reply); `id = some v` means
the key is present with value `v`. Likewise `result`/`error` are present
iff `some`. -/
structure Response where
  jsonrpc : String
  id : Option Json
  result : Option Json
  error : Option RpcError

/-- The response object re-encoded as a JSON value, with members in the
order the source's dict literals write them. -/
def responseToJson (r : Response) : Json :=
  Json.obj
    ([("jsonrpc", Json.str r.jsonrpc)]
      ++ (match r.id with
          | none => []
          | some v => [("id", v)])
      ++ (match r.result with
          | none => []
          | some v => [("result", v)])
      ++ (match r.error with
          | none => []
          | some e =>
            [("error", Json.obj
              ([("code", Json.num e.code), ("message", Json.str e.message)]
                ++ (match e.data with
                    | none => []
                    | some d => [("data", Json.str d)])))]))

/-- One printed response line: `json.dumps(response, ensure_ascii=False)`. -/
def responseLine (r : Response) : String :=
  dumpsC (responseToJson r)

/-- The success envelope `call_tool` builds on handler success in both
servers: `result.content = [ \x7btype: "text", text: json.dumps(result, indent=2)\x7d ]`. -/
def contentWrap (rid : Json) (result : Json) : Response :=
  { jsonrpc := "2.0"
    id := some rid
    result := some (Json.obj
      [("content", Json.arr
        [Json.obj [("type", Json.str "text"),
                   ("text", Json.str (dumpsI 0 result))]])])
    error := none }

/-- One line of the stdio input stream, after `json.loads` has run on it:
blank (skipped), malformed (a `json.JSONDecodeError` whose `str` is the
given message), or a parsed request. -/
inductive Line where
  | blank : Line
  | malformed : String → Line
  | parsed : Request → Line

/-- The `-32700` response both main loops print for a line that fails
JSON decoding: `id: null`, message `"Parse error: " ++ str(e)`. -/
def parseErrorResponse (e : String) : Response :=
  { jsonrpc := "2.0"
    id := some Json.null
    result := none
    error := some { code := -32700, message := "Parse error: " ++ e, data := none } }

namespace Blender

/-- `BlenderMCPServer.__init__`: the mutable fields of the server object.
`request_id` starts as Python `None` (modelled `Json.null`). -/
structure Server where
  request_id : Json
  version : String
  safe_mode : Bool

/-- The server object as `__init__` builds it: `request_id = None`,
`version = "1.0.0"`, `safe_mode = True`. -/
def Server.init : Server :=
  { request_id := Json.null, version := "1.0.0", safe_mode := true }

/-- The slice of Blender (`bpy`) state the translated handlers touch:
the names registered in `bpy.data.objects`. -/
structure Scene where
  objects : List String

/-- Oracle for the external-collaborator boundary (spec §4.3): the 23
`bpy`-backed tool handlers whose bodies the dispatcher treats as opaque,
the `exec` call inside `execute_python` (`none` = success, `some e` =
the raised exception's `str`), and `traceback.format_exc()`. -/
structure Ext where
  runTool : String → List (String × Json) → Scene → Except String Json × Scene
  execPython : String → Option String
  formatExc : String

/-- The static `self.capabilities` dict of `__init__`. -/
def capabilitiesJson : Json :=
  Json.obj
    [("tools", Json.obj [("listChanged", Json.bool true)]),
     ("resources", Json.obj []),
     ("prompts", Json.obj [])]

/-- `BlenderMCPServer.error_response(code, message, data=None)`: the
`data` member is attached only when the argument is truthy (so a `None`
or empty-string trace is dropped). -/
def error_response (rid : Json) (code : Int) (message : String)
    (data : Option String) : Response :=
  { jsonrpc := "2.0"
    id := some rid
    result := none
    error := some
      { code := code
        message := message
        data := match data with
          | some d => if d = "" then none else some d
          | none => none } }

/-- `BlenderMCPServer.initialize`: protocol metadata envelope. -/
def initializeRpc (s : Server) : Response :=
  { jsonrpc := "2.0"
    id := some s.request_id
    result := some (Json.obj
      [("protocolVersion", Json.str "2024-11-05"),
       ("capabilities", capabilitiesJson),
       ("serverInfo", Json.obj
         [("name", Json.str "blender-mcp-server"),
          ("version", Json.str s.version)])])
    error := none }

/-- The literal `tools` list of `BlenderMCPServer.list_tools`
(source lines 83–406), in registration order. -/
def toolsJson : List Json :=
  [Json.obj
    [("name", Json.str "create_object"),
     ("description", Json.str "Create a primitive object (cube, sphere, plane, etc.)"),
     ("inputSchema", Json.obj
       [("type", Json.str "object"),
        ("properties", Json.obj
          [("type", Json.obj
            [("type", Json.str "string"),
             ("enum", Json.arr [Json.str "CUBE", Json.str "SPHERE", Json.str "PLANE",
               Json.str "CYLINDER", Json.str "CONE", Json.str "TORUS"])]),
           ("name", Json.obj [("type", Json.str "string")]),
           ("location", Json.obj
             [("type", Json.str "array"),
              ("items", Json.obj [("type", Json.str "number")]),
              ("minItems", Json.num 3), ("maxItems", Json.num 3)])]),
        ("required", Json.arr [Json.str "type"])])],
   Json.obj
    [("name", Json.str "delete_object"),
     ("description", Json.str "Delete an object by name"),
     ("inputSchema", Json.obj
       [("type", Json.str "object"),
        ("properties", Json.obj
          [("name", Json.obj [("type", Json.str "string")])]),
        ("required", Json.arr [Json.str "name"])])],
   Json.obj
    [("name", Json.str "set_object_transform"),
     ("description", Json.str "Set position, rotation, or scale of an object"),
     ("inputSchema", Json.obj
       [("type", Json.str "object"),
        ("properties", Json.obj
          [("name", Json.obj [("type", Json.str "string")]),
           ("location", Json.obj
             [("type", Json.str "array"), ("items", Json.obj [("type", Json.str "number")])]),
           ("rotation", Json.obj
             [("type", Json.str "array"), ("items", Json.obj [("type", Json.str "number")])]),
           ("scale", Json.obj
             [("type", Json.str "array"), ("items", Json.obj [("type", Json.str "number")])])]),
        ("required", Json.arr [Json.str "name"])])],
   Json.obj
    [("name", Json.str "add_modifier"),
     ("description", Json.str "Add a modifier to an object"),
     ("inputSchema", Json.obj
       [("type", Json.str "object"),
        ("properties", Json.obj
          [("object_name", Json.obj [("type", Json.str "string")]),
           ("modifier_type", Json.obj
             [("type", Json.str "string"),
              ("enum", Json.arr [Json.str "SUBSURF", Json.str "MIRROR", Json.str "ARRAY",
                Json.str "BEVEL", Json.str "SOLIDIFY"])]),
           ("modifier_name", Json.obj [("type", Json.str "string")])]),
        ("required", Json.arr [Json.str "object_name", Json.str "modifier_type"])])],
   Json.obj
    [("name", Json.str "create_material"),
     ("description", Json.str "Create a new material and optionally assign it to an object"),
     ("inputSchema", Json.obj
       [("type", Json.str "object"),
        ("properties", Json.obj
          [("material_name", Json.obj [("type", Json.str "string")]),
           ("object_name", Json.obj [("type", Json.str "string")]),
           ("color", Json.obj
             [("type", Json.str "array"), ("items", Json.obj [("type", Json.str "number")])])]),
        ("required", Json.arr [Json.str "material_name"])])],
   Json.obj
    [("name", Json.str "import_model"),
     ("description", Json.str "Import a 3D model (FBX, OBJ, GLTF, etc.)"),
     ("inputSchema", Json.obj
       [("type", Json.str "object"),
        ("properties", Json.obj
          [("filepath", Json.obj [("type", Json.str "string")]),
           ("file_type", Json.obj
             [("type", Json.str "string"),
              ("enum", Json.arr [Json.str "FBX", Json.str "OBJ", Json.str "GLTF",
                Json.str "USD", Json.str "ABC"])])]),
        ("required", Json.arr [Json.str "filepath"])])],
   Json.obj
    [("name", Json.str "export_model"),
     ("description", Json.str "Export the scene or selected objects"),
     ("inputSchema", Json.obj
       [("type", Json.str "object"),
        ("properties", Json.obj
          [("filepath", Json.obj [("type", Json.str "string")]),
           ("file_type", Json.obj
             [("type", Json.str "string"),
              ("enum", Json.arr [Json.str "FBX", Json.str "OBJ", Json.str "GLTF",
                Json.str "USD", Json.str "ABC"])]),
           ("use_selection", Json.obj [("type", Json.str "boolean")])]),
        ("required", Json.arr [Json.str "filepath", Json.str "file_type"])])],
   Json.obj
    [("name", Json.str "render_scene"),
     ("description", Json.str "Render the current scene to an image"),
     ("inputSchema", Json.obj
       [("type", Json.str "object"),
        ("properties", Json.obj
          [("filepath", Json.obj [("type", Json.str "string")]),
           ("resolution_x", Json.obj [("type", Json.str "integer")]),
           ("resolution_y", Json.obj [("type", Json.str "integer")]),
           ("engine", Json.obj
             [("type", Json.str "string"),
              ("enum", Json.arr [Json.str "CYCLES", Json.str "EEVEE", Json.str "WORKBENCH"])])]),
        ("required", Json.arr [Json.str "filepath"])])],
   Json.obj
    [("name", Json.str "execute_python"),
     ("description", Json.str "Execute arbitrary Python code in Blender context"),
     ("inputSchema", Json.obj
       [("type", Json.str "object"),
        ("properties", Json.obj
          [("code", Json.obj [("type", Json.str "string")])]),
        ("required", Json.arr [Json.str "code"])])],
   Json.obj
    [("name", Json.str "get_scene_info"),
     ("description", Json.str "Get information about the current scene"),
     ("inputSchema", Json.obj
       [("type", Json.str "object"),
        ("properties", Json.obj [])])],
   Json.obj
    [("name", Json.str "optimize_scene"),
     ("description", Json.str "Optimize scene for performance"),
     ("inputSchema", Json.obj
       [("type", Json.str "object"),
        ("properties", Json.obj
          [("remove_unused", Json.obj [("type", Json.str "boolean")]),
           ("merge_objects", Json.obj [("type", Json.str "boolean")])])])],
   Json.obj
    [("name", Json.str "create_animation"),
     ("description", Json.str "Create keyframe animation"),
     ("inputSchema", Json.obj
       [("type", Json.str "object"),
        ("properties", Json.obj
          [("object_name", Json.obj [("type", Json.str "string")]),
           ("property", Json.obj [("type", Json.str "string")]),
           ("frames", Json.obj
             [("type", Json.str "array"), ("items", Json.obj [("type", Json.str "object")])]),
           ("interpolation", Json.obj
             [("type", Json.str "string"),
              ("enum", Json.arr [Json.str "LINEAR", Json.str "BEZIER", Json.str "CONSTANT"])])]),
        ("required", Json.arr [Json.str "object_name", Json.str "property"])])],
   Json.obj
    [("name", Json.str "manage_asset"),
     ("description", Json.str "Mark or unmark data as asset, generate previews"),
     ("inputSchema", Json.obj
       [("type", Json.str "object"),
        ("properties", Json.obj
          [("data_type", Json.obj
            [("type", Json.str "string"),
             ("enum", Json.arr [Json.str "OBJECT", Json.str "MATERIAL", Json.str "MESH",
               Json.str "TEXTURE"])]),
           ("data_name", Json.obj [("type", Json.str "string")]),
           ("action", Json.obj
             [("type", Json.str "string"),
              ("enum", Json.arr [Json.str "MARK_ASSET", Json.str "CLEAR_ASSET",
                Json.str "GENERATE_PREVIEW"])]),
           ("catalog_path", Json.obj [("type", Json.str "string")])]),
        ("required", Json.arr [Json.str "data_type", Json.str "data_name", Json.str "action"])])],
   Json.obj
    [("name", Json.str "copy_data"),
     ("description", Json.str "Duplicate any Blender datablock (object, material, mesh, etc.)"),
     ("inputSchema", Json.obj
       [("type", Json.str "object"),
        ("properties", Json.obj
          [("data_type", Json.obj
            [("type", Json.str "string"),
             ("enum", Json.arr [Json.str "OBJECT", Json.str "MATERIAL", Json.str "MESH",
               Json.str "TEXTURE", Json.str "COLLECTION"])]),
           ("source_name", Json.obj [("type", Json.str "string")]),
           ("target_name", Json.obj [("type", Json.str "string")])]),
        ("required", Json.arr [Json.str "data_type", Json.str "source_name",
          Json.str "target_name"])])],
   Json.obj
    [("name", Json.str "manage_library"),
     ("description", Json.str "Make data local or get library information"),
     ("inputSchema", Json.obj
       [("type", Json.str "object"),
        ("properties", Json.obj
          [("data_type", Json.obj
            [("type", Json.str "string"),
             ("enum", Json.arr [Json.str "OBJECT", Json.str "MATERIAL", Json.str "MESH",
               Json.str "TEXTURE"])]),
           ("data_name", Json.obj [("type", Json.str "string")]),
           ("action", Json.obj
             [("type", Json.str "string"),
              ("enum", Json.arr [Json.str "MAKE_LOCAL", Json.str "GET_INFO"])])]),
        ("required", Json.arr [Json.str "data_type", Json.str "data_name", Json.str "action"])])],
   Json.obj
    [("name", Json.str "get_data_info"),
     ("description", Json.str "Get detailed information about any Blender datablock"),
     ("inputSchema", Json.obj
       [("type", Json.str "object"),
        ("properties", Json.obj
          [("data_type", Json.obj
            [("type", Json.str "string"),
             ("enum", Json.arr [Json.str "OBJECT", Json.str "MATERIAL", Json.str "MESH",
               Json.str "TEXTURE", Json.str "COLLECTION"])]),
           ("data_name", Json.obj [("type", Json.str "string")])]),
        ("required", Json.arr [Json.str "data_type", Json.str "data_name"])])],
   Json.obj
    [("name", Json.str "manage_users"),
     ("description", Json.str "Manage datablock users (remap, clear, find usage)"),
     ("inputSchema", Json.obj
       [("type", Json.str "object"),
        ("properties", Json.obj
          [("action", Json.obj
            [("type", Json.str "string"),
             ("enum", Json.arr [Json.str "CLEAR_USERS", Json.str "FIND_USERS",
               Json.str "USER_REMAP"])]),
           ("data_type", Json.obj
             [("type", Json.str "string"),
              ("enum", Json.arr [Json.str "OBJECT", Json.str "MATERIAL", Json.str "MESH",
                Json.str "TEXTURE"])]),
           ("data_name", Json.obj [("type", Json.str "string")]),
           ("remap_old", Json.obj [("type", Json.str "string")]),
           ("remap_new", Json.obj [("type", Json.str "string")])]),
        ("required", Json.arr [Json.str "action", Json.str "data_type", Json.str "data_name"])])],
   Json.obj
    [("name", Json.str "manage_scenes"),
     ("description", Json.str "Create, delete, or switch scenes"),
     ("inputSchema", Json.obj
       [("type", Json.str "object"),
        ("properties", Json.obj
          [("action", Json.obj
            [("type", Json.str "string"),
             ("enum", Json.arr [Json.str "CREATE", Json.str "DELETE", Json.str "SWITCH"])]),
           ("scene_name", Json.obj [("type", Json.str "string")]),
           ("template_scene", Json.obj [("type", Json.str "string")])]),
        ("required", Json.arr [Json.str "action", Json.str "scene_name"])])],
   Json.obj
    [("name", Json.str "manage_collections"),
     ("description", Json.str "Create/delete collections and manage object membership"),
     ("inputSchema", Json.obj
       [("type", Json.str "object"),
        ("properties", Json.obj
          [("action", Json.obj
            [("type", Json.str "string"),
             ("enum", Json.arr [Json.str "CREATE", Json.str "DELETE", Json.str "ADD_OBJECT",
               Json.str "REMOVE_OBJECT", Json.str "LINK_OBJECT", Json.str "UNLINK_OBJECT"])]),
           ("collection_name", Json.obj [("type", Json.str "string")]),
           ("object_name", Json.obj [("type", Json.str "string")])]),
        ("required", Json.arr [Json.str "action", Json.str "collection_name"])])],
   Json.obj
    [("name", Json.str "manage_animation_data"),
     ("description", Json.str "Create or clear animation data for datablocks"),
     ("inputSchema", Json.obj
       [("type", Json.str "object"),
        ("properties", Json.obj
          [("action", Json.obj
            [("type", Json.str "string"),
             ("enum", Json.arr [Json.str "CREATE", Json.str "CLEAR"])]),
           ("data_type", Json.obj
             [("type", Json.str "string"),
              ("enum", Json.arr [Json.str "OBJECT", Json.str "MATERIAL", Json.str "MESH",
                Json.str "TEXTURE"])]),
           ("data_name", Json.obj [("type", Json.str "string")])]),
        ("required", Json.arr [Json.str "action", Json.str "data_type", Json.str "data_name"])])],
   Json.obj
    [("name", Json.str "create_library_override"),
     ("description", Json.str "Create library overrides for linked datablocks"),
     ("inputSchema", Json.obj
       [("type", Json.str "object"),
        ("properties", Json.obj
          [("data_type", Json.obj
            [("type", Json.str "string"),
             ("enum", Json.arr [Json.str "OBJECT", Json.str "MATERIAL", Json.str "MESH",
               Json.str "TEXTURE"])]),
           ("data_name", Json.obj [("type", Json.str "string")])]),
        ("required", Json.arr [Json.str "data_type", Json.str "data_name"])])],
   Json.obj
    [("name", Json.str "mesh_operations"),
     ("description", Json.str "Perform mesh operations (subdivide, decimate, triangulate, etc.)"),
     ("inputSchema", Json.obj
       [("type", Json.str "object"),
        ("properties", Json.obj
          [("object_name", Json.obj [("type", Json.str "string")]),
           ("operation", Json.obj
             [("type", Json.str "string"),
              ("enum", Json.arr [Json.str "SUBDIVIDE", Json.str "DECIMATE",
                Json.str "TRIANGULATE", Json.str "QUAD_TO_TRI", Json.str "TRI_TO_QUAD"])]),
           ("iterations", Json.obj
             [("type", Json.str "integer"), ("default", Json.num 1)]),
           ("ratio", Json.obj
             [("type", Json.str "number"), ("default", Json.fnum (1 / 2 : Rat))])]),
        ("required", Json.arr [Json.str "object_name", Json.str "operation"])])],
   Json.obj
    [("name", Json.str "uv_operations"),
     ("description", Json.str "Perform UV operations (unwrap, pack islands, etc.)"),
     ("inputSchema", Json.obj
       [("type", Json.str "object"),
        ("properties", Json.obj
          [("object_name", Json.obj [("type", Json.str "string")]),
           ("operation", Json.obj
             [("type", Json.str "string"),
              ("enum", Json.arr [Json.str "SMART_UV_UNWRAP", Json.str "LIGHTMAP_PACK",
                Json.str "AVERAGE_ISLANDS_SCALE"])]),
           ("angle_limit", Json.obj
             [("type", Json.str "number"), ("default", Json.fnum (66 : Rat))]),
           ("island_margin", Json.obj
             [("type", Json.str "number"), ("default", Json.fnum (1 / 50 : Rat))]),
           ("user_area_weight", Json.obj
             [("type", Json.str "number"), ("default", Json.fnum (0 : Rat))])]),
        ("required", Json.arr [Json.str "object_name", Json.str "operation"])])],
   Json.obj
    [("name", Json.str "bake_textures"),
     ("description", Json.str "Bake textures (normal, diffuse, roughness, etc.)"),
     ("inputSchema", Json.obj
       [("type", Json.str "object"),
        ("properties", Json.obj
          [("object_name", Json.obj [("type", Json.str "string")]),
           ("bake_type", Json.obj
             [("type", Json.str "string"),
              ("enum", Json.arr [Json.str "NORMAL", Json.str "DIFFUSE", Json.str "ROUGHNESS",
                Json.str "METALLIC", Json.str "EMISSION", Json.str "AO", Json.str "COMBINED"])]),
           ("image_name", Json.obj [("type", Json.str "string")]),
           ("width", Json.obj [("type", Json.str "integer"), ("default", Json.num 1024)]),
           ("height", Json.obj [("type", Json.str "integer"), ("default", Json.num 1024)]),
           ("margin", Json.obj [("type", Json.str "integer"), ("default", Json.num 16)])]),
        ("required", Json.arr [Json.str "object_name", Json.str "bake_type",
          Json.str "image_name"])])],
   Json.obj
    [("name", Json.str "preview_ensure"),
     ("description", Json.str "Ensure preview images exist for datablocks"),
     ("inputSchema", Json.obj
       [("type", Json.str "object"),
        ("properties", Json.obj
          [("data_type", Json.obj
            [("type", Json.str "string"),
             ("enum", Json.arr [Json.str "OBJECT", Json.str "MATERIAL", Json.str "MESH",
               Json.str "TEXTURE"])]),
           ("data_name", Json.obj [("type", Json.str "string")])]),
        ("required", Json.arr [Json.str "data_type", Json.str "data_name"])])]]

/-- `BlenderMCPServer.list_tools`: the registry wrapped in a success
envelope. The list is rebuilt from the same literal on every call. -/
def list_tools (s : Server) : Response :=
  { jsonrpc := "2.0"
    id := some s.request_id
    result := some (Json.obj [("tools", Json.arr toolsJson)])
    error := none }

/-- `BlenderMCPServer.delete_object`: raises
`ValueError("Object '<name>' not found")` when the name is not in
`bpy.data.objects`, otherwise removes it and reports success. A non-string
`name` would make CPython's membership test raise a `TypeError` that the
dispatcher also converts to `-32603`; it is modelled here through the
same not-found message rendered with `str()`. -/
def delete_object (w : Scene) (args : List (String × Json)) :
    Except String Json × Scene :=
  match Args.get args "name" with
  | some (Json.str n) =>
    if n ∈ w.objects then
      (Except.ok (Json.obj [("success", Json.bool true), ("deleted", Json.str n)]),
       { objects := w.objects.erase n })
    else
      (Except.error ("Object \x27" ++ n ++ "\x27 not found"), w)
  | other =>
    (Except.error ("Object \x27" ++ pyStr ((other).getD Json.null) ++ "\x27 not found"), w)

/-- The `dangerous_patterns` list of `execute_python`. -/
def dangerous_patterns : List String :=
  ["import os", "import sys", "__import__", "eval(", "exec(",
   "subprocess", "shutil.rmtree", "open("]

/-- `BlenderMCPServer.execute_python`: in safe mode it returns the fixed
refusal mapping before reading `code`; otherwise it screens the code
against `dangerous_patterns` and only then runs it (the `exec` call is
the `ext.execPython` oracle; its own exception is caught and reported in
the result mapping, never raised to `call_tool`). -/
def execute_python (s : Server) (ext : Ext) (args : List (String × Json)) : Json :=
  if s.safe_mode then
    Json.obj [("success", Json.bool false),
      ("error", Json.str "Python execution disabled in safe mode. Use only trusted scripts.")]
  else
    let code := pyStr ((Args.get args "code").getD (Json.str ""))
    if dangerous_patterns.any (fun pat => strContains code pat) then
      Json.obj [("success", Json.bool false),
        ("error", Json.str "Dangerous Python operation detected")]
    else
      match ext.execPython code with
      | none => Json.obj [("success", Json.bool true), ("executed", Json.bool true)]
      | some e => Json.obj [("success", Json.bool false), ("error", Json.str e)]

/-- The tool names recognized by `call_tool`'s `elif` chain, in source
order (lines 422–471). -/
def toolNames : List String :=
  ["create_object", "delete_object", "set_object_transform", "add_modifier",
   "create_material", "import_model", "export_model", "render_scene",
   "execute_python", "get_scene_info", "optimize_scene", "create_animation",
   "manage_asset", "copy_data", "manage_library", "get_data_info",
   "manage_users", "manage_scenes", "manage_collections", "manage_animation_data",
   "create_library_override", "mesh_operations", "uv_operations",
   "bake_textures", "preview_ensure"]

/-- The `elif` chain of `call_tool` (lines 422–473): `none` means the
final `else` (unknown tool) was reached; otherwise the named handler's
outcome and the scene it leaves behind. `delete_object` and
`execute_python` are translated above; the other 23 handlers act on
Blender state and are the `ext.runTool` oracle. -/
def dispatchTool (s : Server) (ext : Ext) (tool_name : String)
    (arguments : List (String × Json)) (w : Scene) :
    Option (Except String Json × Scene) :=
  if tool_name = "create_object" then some (ext.runTool "create_object" arguments w)
  else if tool_name = "delete_object" then some (delete_object w arguments)
  else if tool_name = "set_object_transform" then some (ext.runTool "set_object_transform" arguments w)
  else if tool_name = "add_modifier" then some (ext.runTool "add_modifier" arguments w)
  else if tool_name = "create_material" then some (ext.runTool "create_material" arguments w)
  else if tool_name = "import_model" then some (ext.runTool "import_model" arguments w)
  else if tool_name = "export_model" then some (ext.runTool "export_model" arguments w)
  else if tool_name = "render_scene" then some (ext.runTool "render_scene" arguments w)
  else if tool_name = "execute_python" then some (Except.ok (execute_python s ext arguments), w)
  else if tool_name = "get_scene_info" then some (ext.runTool "get_scene_info" arguments w)
  else if tool_name = "optimize_scene" then some (ext.runTool "optimize_scene" arguments w)
  else if tool_name = "create_animation" then some (ext.runTool "create_animation" arguments w)
  else if tool_name = "manage_asset" then some (ext.runTool "manage_asset" arguments w)
  else if tool_name = "copy_data" then some (ext.runTool "copy_data" arguments w)
  else if tool_name = "manage_library" then some (ext.runTool "manage_library" arguments w)
  else if tool_name = "get_data_info" then some (ext.runTool "get_data_info" arguments w)
  else if tool_name = "manage_users" then some (ext.runTool "manage_users" arguments w)
  else if tool_name = "manage_scenes" then some (ext.runTool "manage_scenes" arguments w)
  else if tool_name = "manage_collections" then some (ext.runTool "manage_collections" arguments w)
  else if tool_name = "manage_animation_data" then some (ext.runTool "manage_animation_data" arguments w)
  else if tool_name = "create_library_override" then some (ext.runTool "create_library_override" arguments w)
  else if tool_name = "mesh_operations" then some (ext.runTool "mesh_operations" arguments w)
  else if tool_name = "uv_operations" then some (ext.runTool "uv_operations" arguments w)
  else if tool_name = "bake_textures" then some (ext.runTool "bake_textures" arguments w)
  else if tool_name = "preview_ensure" then some (ext.runTool "preview_ensure" arguments w)
  else none

/-- `BlenderMCPServer.call_tool`: resolve the tool, wrap success as the
`content` envelope, wrap a raise as `-32603` with the traceback as
diagnostic `data`, and answer `-32601` for an unknown name. -/
def call_tool (s : Server) (w : Scene) (ext : Ext)
    (tool_name : String) (arguments : List (String × Json)) :
    Response × Server × Scene :=
  match dispatchTool s ext tool_name arguments w with
  | none =>
    (error_response s.request_id (-32601) ("Unknown tool: " ++ tool_name) none, s, w)
  | some (Except.ok result, w2) =>
    (contentWrap s.request_id result, s, w2)
  | some (Except.error e, w2) =>
    (error_response s.request_id (-32603) ("Tool execution error: " ++ e)
      (some ext.formatExc), s, w2)

/-- `BlenderMCPServer.handle_request`: store the request id, then route
on the method name. `notifications/initialized` answers with the literal
`\x7b"jsonrpc": "2.0", "result": None\x7d` — an envelope with no `id`
member. Nothing in the translated branches can raise, so the method's
outer `except` (→ `-32603 Internal error`) is unreachable here. -/
def handle_request (s : Server) (w : Scene) (ext : Ext) (req : Request) :
    Response × Server × Scene :=
  let s2 : Server := { s with request_id := req.id }
  if req.method = "initialize" then (initializeRpc s2, s2, w)
  else if req.method = "tools/list" then (list_tools s2, s2, w)
  else if req.method = "tools/call" then
    call_tool s2 w ext req.paramsName req.paramsArguments
  else if req.method = "notifications/initialized" then
    ({ jsonrpc := "2.0", id := none, result := some Json.null, error := none }, s2, w)
  else
    (error_response s2.request_id (-32601) ("Method not found: " ++ req.method) none, s2, w)

/-- The stdio loop of `blender_mcp_server.main`: blank lines are skipped,
a `JSONDecodeError` prints the `-32700` envelope and the loop continues,
and every parsed request is given to `handle_request` and its response
printed. The returned list holds the printed responses in order. -/
def mainLoop (ext : Ext) : Server → Scene → List Line → List Response
  | _, _, [] => []
  | s, w, Line.blank :: rest => mainLoop ext s w rest
  | s, w, Line.malformed e :: rest =>
    parseErrorResponse e :: mainLoop ext s w rest
  | s, w, Line.parsed req :: rest =>
    let out := handle_request s w ext req
    out.1 :: mainLoop ext out.2.1 out.2.2 rest

end Blender

namespace GitHub

/-- `GitHubMCPServer.__init__`: mutable server fields. `github_token` is
`os.environ.get("GITHUB_TOKEN", "")`, so a missing variable becomes the
empty string. -/
structure Server where
  request_id : Json
  version : String
  github_token : String

/-- The server object as `__init__` builds it from the environment. -/
def Server.init (envToken : Option String) : Server :=
  { request_id := Json.null, version := "1.0.0", github_token := envToken.getD "" }

/-- Oracle for the GitHub REST API: `requests.post(url, json=data).json()`
and `requests.get(url).json()`. An `Except.error` is a raised
`requests` exception (its `str`). -/
structure Ext where
  post : String → Json → Except String Json
  getUrl : String → Except String Json

/-- The static `self.capabilities` dict of `__init__` (same literal as
the Blender server's). -/
def capabilitiesJson : Json :=
  Json.obj
    [("tools", Json.obj [("listChanged", Json.bool true)]),
     ("resources", Json.obj []),
     ("prompts", Json.obj [])]

/-- `GitHubMCPServer.error_response(code, message)`: no `data` member. -/
def error_response (rid : Json) (code : Int) (message : String) : Response :=
  { jsonrpc := "2.0"
    id := some rid
    result := none
    error := some { code := code, message := message, data := none } }

/-- `GitHubMCPServer.initialize`: protocol metadata envelope. -/
def initializeRpc (s : Server) : Response :=
  { jsonrpc := "2.0"
    id := some s.request_id
    result := some (Json.obj
      [("protocolVersion", Json.str "2024-11-05"),
       ("capabilities", capabilitiesJson),
       ("serverInfo", Json.obj
         [("name", Json.str "github-mcp-server"),
          ("version", Json.str s.version)])])
    error := none }

/-- The literal `tools` list of `GitHubMCPServer.list_tools`. -/
def toolsJson : List Json :=
  [Json.obj
    [("name", Json.str "create_issue"),
     ("description", Json.str "Create a new GitHub issue"),
     ("inputSchema", Json.obj
       [("type", Json.str "object"),
        ("properties", Json.obj
          [("repo", Json.obj [("type", Json.str "string")]),
           ("title", Json.obj [("type", Json.str "string")]),
           ("body", Json.obj [("type", Json.str "string")])]),
        ("required", Json.arr [Json.str "repo", Json.str "title"])])],
   Json.obj
    [("name", Json.str "search_repositories"),
     ("description", Json.str "Search for GitHub repositories"),
     ("inputSchema", Json.obj
       [("type", Json.str "object"),
        ("properties", Json.obj
          [("query", Json.obj [("type", Json.str "string")]),
           ("language", Json.obj [("type", Json.str "string")])]),
        ("required", Json.arr [Json.str "query"])])],
   Json.obj
    [("name", Json.str "get_repository_info"),
     ("description", Json.str "Get information about a GitHub repository"),
     ("inputSchema", Json.obj
       [("type", Json.str "object"),
        ("properties", Json.obj
          [("owner", Json.obj [("type", Json.str "string")]),
           ("repo", Json.obj [("type", Json.str "string")])]),
        ("required", Json.arr [Json.str "owner", Json.str "repo"])])]]

/-- `GitHubMCPServer.list_tools`. -/
def list_tools (s : Server) : Response :=
  { jsonrpc := "2.0"
    id := some s.request_id
    result := some (Json.obj [("tools", Json.arr toolsJson)])
    error := none }

/-- `GitHubMCPServer.create_issue`: with no configured token it returns
the fixed error mapping before the URL is built or any request is made;
otherwise it posts to the issues endpoint of the named repo. -/
def create_issue (s : Server) (ext : Ext) (args : List (String × Json)) :
    Except String Json :=
  let repo := Args.get args "repo"
  let title := Args.get args "title"
  let body := (Args.get args "body").getD (Json.str "")
  if s.github_token = "" then
    Except.ok (Json.obj [("error", Json.str "GitHub token not configured")])
  else
    let url := "https://api.github.com/repos/" ++ pyStr (repo.getD Json.null) ++ "/issues"
    ext.post url (Json.obj [("title", title.getD Json.null), ("body", body)])

/-- `GitHubMCPServer.search_repositories`: builds the search URL, adding
a language qualifier only when `language` is truthy. -/
def search_repositories (ext : Ext) (args : List (String × Json)) :
    Except String Json :=
  let query := Args.get args "query"
  let language := (Args.get args "language").getD (Json.str "")
  let url := "https://api.github.com/search/repositories?q=" ++ pyStr (query.getD Json.null)
  let url2 := if pyTruthy language then url ++ "+language:" ++ pyStr language else url
  ext.getUrl url2

/-- `GitHubMCPServer.get_repository_info`. -/
def get_repository_info (ext : Ext) (args : List (String × Json)) :
    Except String Json :=
  let owner := Args.get args "owner"
  let repo := Args.get args "repo"
  let url := "https://api.github.com/repos/" ++ pyStr (owner.getD Json.null) ++ "/"
    ++ pyStr (repo.getD Json.null)
  ext.getUrl url

/-- The tool names recognized by the GitHub `call_tool` chain. -/
def toolNames : List String :=
  ["create_issue", "search_repositories", "get_repository_info"]

/-- The `elif` chain of the GitHub `call_tool` (lines 117–124). -/
def dispatchTool (s : Server) (ext : Ext) (tool_name : String)
    (arguments : List (String × Json)) : Option (Except String Json) :=
  if tool_name = "create_issue" then some (create_issue s ext arguments)
  else if tool_name = "search_repositories" then some (search_repositories ext arguments)
  else if tool_name = "get_repository_info" then some (get_repository_info ext arguments)
  else none

/-- `GitHubMCPServer.call_tool`. -/
def call_tool (s : Server) (ext : Ext)
    (tool_name : String) (arguments : List (String × Json)) : Response :=
  match dispatchTool s ext tool_name arguments with
  | none => error_response s.request_id (-32601) ("Unknown tool: " ++ tool_name)
  | some (Except.ok result) => contentWrap s.request_id result
  | some (Except.error e) =>
    error_response s.request_id (-32603) ("Tool execution error: " ++ e)

/-- `GitHubMCPServer.handle_request`: store the request id, then route.
Unlike the Blender server there is no `notifications/initialized`
branch, so that method falls through to `Method not found`. -/
def handle_request (s : Server) (ext : Ext) (req : Request) :
    Response × Server :=
  let s2 : Server := { s with request_id := req.id }
  if req.method = "initialize" then (initializeRpc s2, s2)
  else if req.method = "tools/list" then (list_tools s2, s2)
  else if req.method = "tools/call" then
    (call_tool s2 ext req.paramsName req.paramsArguments, s2)
  else
    (error_response s2.request_id (-32601) ("Method not found: " ++ req.method), s2)

/-- The stdio loop of `github_mcp_example.main`: same shape as the
Blender loop — every parsed request is answered with exactly one printed
response, a decode failure prints the `-32700` envelope and the loop
continues. -/
def mainLoop (ext : Ext) : Server → List Line → List Response
  | _, [] => []
  | s, Line.blank :: rest => mainLoop ext s rest
  | s, Line.malformed e :: rest =>
    parseErrorResponse e :: mainLoop ext s rest
  | s, Line.parsed req :: rest =>
    let out := handle_request s ext req
    out.1 :: mainLoop ext out.2 rest

end GitHub

/-- The four protocol-level methods named by the specification
(§6 External Interfaces). Spec-side definition, for comparison with the
routers translated from the source. -/
def specRecognizedMethods : List String :=
  ["initialize", "tools/list", "tools/call", "notifications/initialized"]

/-- The refusal mapping `execute_python` returns while `safe_mode` holds. -/
def safeModeRefusal : Json :=
  Json.obj [("success", Json.bool false),
    ("error", Json.str "Python execution disabled in safe mode. Use only trusted scripts.")]

/-- The mapping `create_issue` returns when no GitHub token is configured. -/
def noTokenResult : Json :=
  Json.obj [("error", Json.str "GitHub token not configured")]

/-- A concrete external-world oracle for the Blender server, used to
instantiate counterexamples and witnesses. -/
def extDummy : Blender.Ext :=
  { runTool := fun _ _ w => (Except.error "external failure", w)
    execPython := fun _ => none
    formatExc := "tb" }

/-- A concrete REST oracle for the GitHub server. -/
def ghExtDummy : GitHub.Ext :=
  { post := fun _ _ => Except.ok (Json.obj [])
    getUrl := fun _ => Except.ok (Json.obj [("full_name", Json.str "octo/repo")]) }

/-- A scene with no objects. -/
def sceneEmpty : Blender.Scene := { objects := [] }

/-- A scene holding one object named `Cube`. -/
def sceneCube : Blender.Scene := { objects := ["Cube"] }

/-- `notifications/initialized` sent, against protocol, with the
non-null id `7`. -/
def reqNotifWithId : Request :=
  { method := "notifications/initialized", paramsName := "", paramsArguments := []
    id := Json.num 7 }

/-- The `notifications/initialized` notification proper (absent id). -/
def reqNotifNoId : Request :=
  { method := "notifications/initialized", paramsName := "", paramsArguments := []
    id := Json.null }

/-- `tools/call` of `delete_object` naming an object that does not exist. -/
def reqDeleteGhost : Request :=
  { method := "tools/call", paramsName := "delete_object"
    paramsArguments := [("name", Json.str "ghost")], id := Json.num 9 }

/-- The spec scenario: `tools/call` of an unregistered tool, id `2`. -/
def reqUnknownTool : Request :=
  { method := "tools/call", paramsName := "nonexistent_tool"
    paramsArguments := [], id := Json.num 2 }

/-- `tools/call` of `execute_python` with a code argument, id `3`. -/
def reqExecPython : Request :=
  { method := "tools/call", paramsName := "execute_python"
    paramsArguments := [("code", Json.str "print(1)")], id := Json.num 3 }

/-- `tools/call` of `create_issue`, id `4`. -/
def reqCreateIssue : Request :=
  { method := "tools/call", paramsName := "create_issue"
    paramsArguments := [("repo", Json.str "octo/repo"), ("title", Json.str "bug")]
    id := Json.num 4 }

/-- `tools/call` of `get_repository_info`, id `5`. -/
def reqRepoInfo : Request :=
  { method := "tools/call", paramsName := "get_repository_info"
    paramsArguments := [("owner", Json.str "octo"), ("repo", Json.str "repo")]
    id := Json.num 5 }

/-- A `tools/list` request with id `1`. -/
def reqToolsList : Request :=
  { method := "tools/list", paramsName := "", paramsArguments := [], id := Json.num 1 }

/-- A request with an unrecognized method, id `6`. -/
def reqBogusMethod : Request :=
  { method := "scene/undo", paramsName := "", paramsArguments := [], id := Json.num 6 }

/-- A notification (absent id) with an unrecognized method. -/
def reqBogusNoId : Request :=
  { method := "scene/undo", paramsName := "", paramsArguments := [], id := Json.null }

/-- Handling any request leaves the Blender server state unchanged except
for `request_id`: `version` and `safe_mode` are written only by
`__init__`, and the registry is a literal rebuilt on every call. -/
theorem blender_handle_server_state (s : Blender.Server) (w : Blender.Scene)
    (ext : Blender.Ext) (req : Request) :
    (Blender.handle_request s w ext req).2.1 = { s with request_id := req.id } := by
  simp only [Blender.handle_request, Blender.call_tool]
  split_ifs <;>
    first
      | rfl
      | (rcases Blender.dispatchTool { s with request_id := req.id } ext
            req.paramsName req.paramsArguments w with _ | ⟨e | r, w2⟩ <;> rfl)

/-- The GitHub analogue: only `request_id` changes across a request. -/
theorem gh_handle_server_state (s : GitHub.Server) (ext : GitHub.Ext) (req : Request) :
    (GitHub.handle_request s ext req).2 = { s with request_id := req.id } := by
  unfold GitHub.handle_request
  split_ifs <;> rfl

/-- A name outside the Blender `elif` chain reaches its final `else`. -/
theorem blender_dispatch_not_found (s : Blender.Server) (ext : Blender.Ext)
    (args : List (String × Json)) (w : Blender.Scene) (name : String)
    (h : name ∉ Blender.toolNames) :
    Blender.dispatchTool s ext name args w = none := by
  simp only [Blender.toolNames, List.mem_cons, List.not_mem_nil, or_false] at h
  push_neg at h
  obtain ⟨h1, h2, h3, h4, h5, h6, h7, h8, h9, h10, h11, h12, h13, h14, h15, h16, h17,
    h18, h19, h20, h21, h22, h23, h24, h25⟩ := h
  unfold Blender.dispatchTool
  rw [if_neg h1, if_neg h2, if_neg h3, if_neg h4, if_neg h5, if_neg h6, if_neg h7,
    if_neg h8, if_neg h9, if_neg h10, if_neg h11, if_neg h12, if_neg h13, if_neg h14,
    if_neg h15, if_neg h16, if_neg h17, if_neg h18, if_neg h19, if_neg h20, if_neg h21,
    if_neg h22, if_neg h23, if_neg h24, if_neg h25]

/-- A name outside the GitHub `elif` chain reaches its final `else`. -/
theorem gh_dispatch_not_found (s : GitHub.Server) (ext : GitHub.Ext)
    (args : List (String × Json)) (name : String)
    (h : name ∉ GitHub.toolNames) :
    GitHub.dispatchTool s ext name args = none := by
  simp only [GitHub.toolNames, List.mem_cons, List.not_mem_nil, or_false] at h
  push_neg at h
  obtain ⟨h1, h2, h3⟩ := h
  unfold GitHub.dispatchTool
  rw [if_neg h1, if_neg h2, if_neg h3]

/-- C1 (counterexample): the claim requires the response to the method
`notifications/initialized` sent with the non-null id `7` to carry an
`id` field equal to `7`; the Blender server's reply to it is the literal
envelope with no `id` field at all. -/
theorem C1_counterexample :
    reqNotifWithId.id = Json.num 7
    ∧ (Blender.handle_request Blender.Server.init sceneEmpty extDummy reqNotifWithId).1.id
        = none :=
  ⟨rfl, rfl⟩

/-- C1 (corrected): every parsed request produces exactly one response;
the response's `id` equals the request's `id` for every method in the
GitHub server, and for every method except `notifications/initialized`
in the Blender server (whose reply omits the `id` member entirely); a
line that cannot be parsed is answered with id `null`. -/
theorem C1_response_id (s : Blender.Server) (w : Blender.Scene) (ext : Blender.Ext)
    (req : Request) (gs : GitHub.Server) (gext : GitHub.Ext) (rest : List Line)
    (_hid : req.id ≠ Json.null) :
    (req.method ≠ "notifications/initialized" →
      (Blender.handle_request s w ext req).1.id = some req.id)
    ∧ (GitHub.handle_request gs gext req).1.id = some req.id
    ∧ Blender.mainLoop ext s w (Line.parsed req :: rest)
        = (Blender.handle_request s w ext req).1
          :: Blender.mainLoop ext (Blender.handle_request s w ext req).2.1
               (Blender.handle_request s w ext req).2.2 rest
    ∧ GitHub.mainLoop gext gs (Line.parsed req :: rest)
        = (GitHub.handle_request gs gext req).1
          :: GitHub.mainLoop gext (GitHub.handle_request gs gext req).2 rest
    ∧ (∀ e, (parseErrorResponse e).id = some Json.null) := by
  refine ⟨?_, ?_, rfl, rfl, fun e => rfl⟩
  · intro hm
    by_cases h1 : req.method = "initialize"
    · simp [Blender.handle_request, Blender.initializeRpc, h1]
    · by_cases h2 : req.method = "tools/list"
      · simp [Blender.handle_request, Blender.list_tools, h1, h2]
      · by_cases h3 : req.method = "tools/call"
        · simp only [Blender.handle_request, Blender.call_tool,
            if_neg h1, if_neg h2, if_pos h3]
          rcases Blender.dispatchTool { s with request_id := req.id } ext
            req.paramsName req.paramsArguments w with _ | ⟨e | r, w2⟩ <;> rfl
        · simp [Blender.handle_request, Blender.error_response, h1, h2, h3, hm]
  · by_cases h1 : req.method = "initialize"
    · simp [GitHub.handle_request, GitHub.initializeRpc, h1]
    · by_cases h2 : req.method = "tools/list"
      · simp [GitHub.handle_request, GitHub.list_tools, h1, h2]
      · by_cases h3 : req.method = "tools/call"
        · simp only [GitHub.handle_request, GitHub.call_tool,
            if_neg h1, if_neg h2, if_pos h3]
          rcases GitHub.dispatchTool { gs with request_id := req.id } gext
            req.paramsName req.paramsArguments with _ | (e | r) <;> rfl
        · simp [GitHub.handle_request, GitHub.error_response, h1, h2, h3]

/-- C1 witness: a `tools/list` request with id `1` is echoed with id `1`
by the Blender server. -/
theorem C1_response_id_witness :
    (Blender.handle_request Blender.Server.init sceneEmpty extDummy reqToolsList).1.id
      = some (Json.num 1) :=
  (C1_response_id Blender.Server.init sceneEmpty extDummy reqToolsList
    (GitHub.Server.init none) ghExtDummy [] (fun h => Json.noConfusion h)).1
    (by decide)

/-- C2 (counterexample): for the notification `notifications/initialized`
(absent id) the claim demands zero response lines and never a
`Method not found` reply; the GitHub main loop prints exactly one line
and it is the `-32601 Method not found` error. The Blender loop likewise
prints a line for a notification with an unknown method. -/
theorem C2_counterexample :
    GitHub.mainLoop ghExtDummy (GitHub.Server.init none) [Line.parsed reqNotifNoId]
      = [GitHub.error_response Json.null (-32601)
          "Method not found: notifications/initialized"]
    ∧ Blender.mainLoop extDummy Blender.Server.init sceneEmpty [Line.parsed reqBogusNoId]
      = [Blender.error_response Json.null (-32601) "Method not found: scene/undo" none] :=
  ⟨rfl, rfl⟩

/-- C2 (corrected): the main loops emit exactly one response line for
every successfully parsed request, notifications included; the Blender
server answers `notifications/initialized` with the id-less
`result: null` envelope, while the GitHub server answers it with a
`-32601 Method not found` error. -/
theorem C2_notifications (s : Blender.Server) (w : Blender.Scene) (ext : Blender.Ext)
    (req : Request) (gs : GitHub.Server) (gext : GitHub.Ext) (rest : List Line)
    (_hid : req.id = Json.null) :
    Blender.mainLoop ext s w (Line.parsed req :: rest)
        = (Blender.handle_request s w ext req).1
          :: Blender.mainLoop ext (Blender.handle_request s w ext req).2.1
               (Blender.handle_request s w ext req).2.2 rest
    ∧ GitHub.mainLoop gext gs (Line.parsed req :: rest)
        = (GitHub.handle_request gs gext req).1
          :: GitHub.mainLoop gext (GitHub.handle_request gs gext req).2 rest
    ∧ (req.method = "notifications/initialized" →
        (Blender.handle_request s w ext req).1
          = { jsonrpc := "2.0", id := none, result := some Json.null, error := none }
        ∧ (GitHub.handle_request gs gext req).1
          = GitHub.error_response req.id (-32601) ("Method not found: " ++ req.method)) := by
  refine ⟨rfl, rfl, fun hm => ⟨?_, ?_⟩⟩
  · simp [Blender.handle_request, hm]
  · simp [GitHub.handle_request, hm]

/-- C2 witness: the Blender server answers the
`notifications/initialized` notification with the id-less null result. -/
theorem C2_notifications_witness :
    (Blender.handle_request Blender.Server.init sceneEmpty extDummy reqNotifNoId).1
      = { jsonrpc := "2.0", id := none, result := some Json.null, error := none } :=
  ((C2_notifications Blender.Server.init sceneEmpty extDummy reqNotifNoId
    (GitHub.Server.init none) ghExtDummy [] rfl).2.2 rfl).1

/-- C3 (counterexample): `tools/call` of the registered tool
`delete_object` on an absent object raises
`Object \x27ghost\x27 not found`; the resulting `-32603` message carries
the entity name but not the tool's name, contradicting the claim that it
includes both. -/
theorem C3_counterexample :
    "delete_object" ∈ Blender.toolNames
    ∧ (Blender.handle_request Blender.Server.init sceneCube extDummy reqDeleteGhost).1.error
      = some { code := -32603
               message := "Tool execution error: Object \x27ghost\x27 not found"
               data := some "tb" }
    ∧ strContains "Tool execution error: Object \x27ghost\x27 not found" "ghost" = true
    ∧ strContains "Tool execution error: Object \x27ghost\x27 not found" "delete_object"
        = false :=
  ⟨by decide, rfl, by decide, by decide⟩

/-- C3 (corrected): when a registered tool's handler raises, both servers
answer `-32603` with message `"Tool execution error: " ++ str(e)` — the
underlying error's message, not prefixed or suffixed by the tool's name;
the Blender server attaches the traceback as `data` when non-empty. -/
theorem C3_handler_error (s : Blender.Server) (w : Blender.Scene) (ext : Blender.Ext)
    (req : Request) (gs : GitHub.Server) (gext : GitHub.Ext)
    (e : String) (w2 : Blender.Scene)
    (hm : req.method = "tools/call") :
    (Blender.dispatchTool { s with request_id := req.id } ext req.paramsName
        req.paramsArguments w = some (Except.error e, w2) →
      (Blender.handle_request s w ext req).1
        = Blender.error_response req.id (-32603) ("Tool execution error: " ++ e)
            (some ext.formatExc))
    ∧ (GitHub.dispatchTool { gs with request_id := req.id } gext req.paramsName
        req.paramsArguments = some (Except.error e) →
      (GitHub.handle_request gs gext req).1
        = GitHub.error_response req.id (-32603) ("Tool execution error: " ++ e)) := by
  constructor
  · intro hd
    simp [Blender.handle_request, Blender.call_tool, hm, hd]
  · intro hd
    simp [GitHub.handle_request, GitHub.call_tool, hm, hd]

/-- C3 witness: the concrete `delete_object` failure of the
counterexample instantiates the corrected statement. -/
theorem C3_handler_error_witness :
    (Blender.handle_request Blender.Server.init sceneCube extDummy reqDeleteGhost).1
      = Blender.error_response (Json.num 9) (-32603)
          "Tool execution error: Object \x27ghost\x27 not found" (some "tb") :=
  (C3_handler_error Blender.Server.init sceneCube extDummy reqDeleteGhost
    (GitHub.Server.init none) ghExtDummy "Object \x27ghost\x27 not found" sceneCube
    rfl).1 rfl

/-- C4: a `tools/call` naming a tool outside the registry (lookup is
case-sensitive string equality) is answered `-32601` with message
`Unknown tool: <name>` and the request's id, in both servers; in
particular the spec's scenario input with id `2` and name
`nonexistent_tool` yields exactly that envelope. -/
theorem C4_unknown_tool (s : Blender.Server) (w : Blender.Scene) (ext : Blender.Ext)
    (req : Request) (gs : GitHub.Server) (gext : GitHub.Ext)
    (hm : req.method = "tools/call") :
    (req.paramsName ∉ Blender.toolNames →
      (Blender.handle_request s w ext req).1
        = Blender.error_response req.id (-32601)
            ("Unknown tool: " ++ req.paramsName) none)
    ∧ (req.paramsName ∉ GitHub.toolNames →
      (GitHub.handle_request gs gext req).1
        = GitHub.error_response req.id (-32601) ("Unknown tool: " ++ req.paramsName))
    ∧ (Blender.handle_request Blender.Server.init sceneEmpty extDummy reqUnknownTool).1
        = Blender.error_response (Json.num 2) (-32601)
            "Unknown tool: nonexistent_tool" none
    ∧ (GitHub.handle_request (GitHub.Server.init none) ghExtDummy reqUnknownTool).1
        = GitHub.error_response (Json.num 2) (-32601)
            "Unknown tool: nonexistent_tool" := by
  refine ⟨?_, ?_, rfl, rfl⟩
  · intro hn
    have hd := blender_dispatch_not_found { s with request_id := req.id } ext
      req.paramsArguments w req.paramsName hn
    simp [Blender.handle_request, Blender.call_tool, hm, hd]
  · intro hn
    have hd := gh_dispatch_not_found { gs with request_id := req.id } gext
      req.paramsArguments req.paramsName hn
    simp [GitHub.handle_request, GitHub.call_tool, hm, hd]

/-- C4 witness: the scenario request instantiates the universal part. -/
theorem C4_unknown_tool_witness :
    (Blender.handle_request Blender.Server.init sceneEmpty extDummy reqUnknownTool).1
      = Blender.error_response (Json.num 2) (-32601)
          "Unknown tool: nonexistent_tool" none :=
  (C4_unknown_tool Blender.Server.init sceneEmpty extDummy reqUnknownTool
    (GitHub.Server.init none) ghExtDummy rfl).1 (by decide)

/-- C6: a line that fails JSON decoding makes both main loops print the
`-32700` envelope with id `null` and message `"Parse error: " ++ str(e)`,
and the loops continue with the remaining lines unchanged. -/
theorem C6_parse_error (e : String) (rest : List Line) (s : Blender.Server)
    (w : Blender.Scene) (ext : Blender.Ext) (gs : GitHub.Server) (gext : GitHub.Ext) :
    Blender.mainLoop ext s w (Line.malformed e :: rest)
        = parseErrorResponse e :: Blender.mainLoop ext s w rest
    ∧ GitHub.mainLoop gext gs (Line.malformed e :: rest)
        = parseErrorResponse e :: GitHub.mainLoop gext gs rest
    ∧ (parseErrorResponse e).id = some Json.null
    ∧ (parseErrorResponse e).error
        = some { code := -32700, message := "Parse error: " ++ e, data := none } :=
  ⟨rfl, rfl, rfl, rfl⟩

/-- C5 (counterexample): `notifications/initialized` is one of the four
recognized methods, yet the GitHub server's router answers it with
`-32601 Method not found`. -/
theorem C5_counterexample :
    "notifications/initialized" ∈ specRecognizedMethods
    ∧ (GitHub.handle_request (GitHub.Server.init none) ghExtDummy reqNotifWithId).1
        = GitHub.error_response (Json.num 7) (-32601)
            "Method not found: notifications/initialized" :=
  ⟨by decide, rfl⟩

/-- C5 (corrected): any method outside the recognized four is answered
`-32601` with the offending name in both servers; the Blender router
never answers a recognized method with `-32601`, and a `tools/call`
response with code `-32601` can only be the tool-level
`Unknown tool: <name>` error; but the GitHub router recognizes only
three methods and answers `notifications/initialized` with `-32601`. -/
theorem C5_method_router (s : Blender.Server) (w : Blender.Scene) (ext : Blender.Ext)
    (req : Request) (gs : GitHub.Server) (gext : GitHub.Ext) :
    (req.method ∉ specRecognizedMethods →
      (Blender.handle_request s w ext req).1
        = Blender.error_response req.id (-32601)
            ("Method not found: " ++ req.method) none
      ∧ (GitHub.handle_request gs gext req).1
        = GitHub.error_response req.id (-32601) ("Method not found: " ++ req.method))
    ∧ (req.method = "initialize" ∨ req.method = "tools/list"
        ∨ req.method = "notifications/initialized" →
      (Blender.handle_request s w ext req).1.error = none)
    ∧ (req.method = "initialize" ∨ req.method = "tools/list" →
      (GitHub.handle_request gs gext req).1.error = none)
    ∧ (req.method = "notifications/initialized" →
      (GitHub.handle_request gs gext req).1
        = GitHub.error_response req.id (-32601) ("Method not found: " ++ req.method))
    ∧ (req.method = "tools/call" →
      ∀ c m d, (Blender.handle_request s w ext req).1.error = some ⟨c, m, d⟩ →
        c = -32601 → m = "Unknown tool: " ++ req.paramsName)
    ∧ (req.method = "tools/call" →
      ∀ c m d, (GitHub.handle_request gs gext req).1.error = some ⟨c, m, d⟩ →
        c = -32601 → m = "Unknown tool: " ++ req.paramsName) := by
  refine ⟨?_, ?_, ?_, ?_, ?_, ?_⟩
  · intro h
    simp only [specRecognizedMethods, List.mem_cons, List.not_mem_nil, or_false] at h
    push_neg at h
    obtain ⟨ha, hb, hc, hd⟩ := h
    constructor
    · simp only [Blender.handle_request]
      rw [if_neg ha, if_neg hb, if_neg hc, if_neg hd]
    · simp only [GitHub.handle_request]
      rw [if_neg ha, if_neg hb, if_neg hc]
  · rintro (hm | hm | hm) <;>
      simp [Blender.handle_request, Blender.initializeRpc, Blender.list_tools, hm]
  · rintro (hm | hm) <;>
      simp [GitHub.handle_request, GitHub.initializeRpc, GitHub.list_tools, hm]
  · intro hm
    simp [GitHub.handle_request, hm]
  · intro hm c m d h hc
    simp only [Blender.handle_request, Blender.call_tool,
      if_neg (hm ▸ (by decide : ¬("tools/call" : String) = "initialize")),
      if_neg (hm ▸ (by decide : ¬("tools/call" : String) = "tools/list")),
      if_pos hm] at h
    rcases hd : Blender.dispatchTool { s with request_id := req.id } ext
      req.paramsName req.paramsArguments w with _ | ⟨e | r, w2⟩
    all_goals rw [hd] at h
    · simp only [Blender.error_response] at h
      injection h with h2
      injection h2 with e1 e2 e3
      exact e2.symm
    · simp only [Blender.error_response] at h
      injection h with h2
      injection h2 with e1 e2 e3
      rw [← e1] at hc
      exact absurd hc (by decide)
    · simp only [contentWrap] at h
      exact Option.noConfusion h
  · intro hm c m d h hc
    simp only [GitHub.handle_request, GitHub.call_tool,
      if_neg (hm ▸ (by decide : ¬("tools/call" : String) = "initialize")),
      if_neg (hm ▸ (by decide : ¬("tools/call" : String) = "tools/list")),
      if_pos hm] at h
    rcases hd : GitHub.dispatchTool { gs with request_id := req.id } gext
      req.paramsName req.paramsArguments with _ | (e | r)
    all_goals rw [hd] at h
    · simp only [GitHub.error_response] at h
      injection h with h2
      injection h2 with e1 e2 e3
      exact e2.symm
    · simp only [GitHub.error_response] at h
      injection h with h2
      injection h2 with e1 e2 e3
      rw [← e1] at hc
      exact absurd hc (by decide)
    · simp only [contentWrap] at h
      exact Option.noConfusion h

/-- C5 witness: the unrecognized method `scene/undo` with id `6` is
answered `-32601 Method not found` by both servers. -/
theorem C5_method_router_witness :
    (Blender.handle_request Blender.Server.init sceneEmpty extDummy reqBogusMethod).1
      = Blender.error_response (Json.num 6) (-32601)
          "Method not found: scene/undo" none
    ∧ (GitHub.handle_request (GitHub.Server.init none) ghExtDummy reqBogusMethod).1
      = GitHub.error_response (Json.num 6) (-32601) "Method not found: scene/undo" :=
  (C5_method_router Blender.Server.init sceneEmpty extDummy reqBogusMethod
    (GitHub.Server.init none) ghExtDummy).1 (by decide)

/-- C7: when a registered tool's handler returns a mapping without
raising, both servers answer with the success envelope whose result is
exactly `content = [ \x7btype: "text", text: dumps-indent-2(result)\x7d ]`
(the `contentWrap` definition), stamped with the request's id. -/
theorem C7_success_shape (s : Blender.Server) (w : Blender.Scene) (ext : Blender.Ext)
    (req : Request) (gs : GitHub.Server) (gext : GitHub.Ext)
    (result : Json) (w2 : Blender.Scene)
    (hm : req.method = "tools/call") :
    (Blender.dispatchTool { s with request_id := req.id } ext req.paramsName
        req.paramsArguments w = some (Except.ok result, w2) →
      (Blender.handle_request s w ext req).1 = contentWrap req.id result)
    ∧ (GitHub.dispatchTool { gs with request_id := req.id } gext req.paramsName
        req.paramsArguments = some (Except.ok result) →
      (GitHub.handle_request gs gext req).1 = contentWrap req.id result) := by
  constructor
  · intro hd
    simp [Blender.handle_request, Blender.call_tool, hm, hd]
  · intro hd
    simp [GitHub.handle_request, GitHub.call_tool, hm, hd]

/-- C7 witness: `get_repository_info` succeeding through the REST oracle
is wrapped as the single text content item. -/
theorem C7_success_shape_witness :
    (GitHub.handle_request (GitHub.Server.init none) ghExtDummy reqRepoInfo).1
      = contentWrap (Json.num 5) (Json.obj [("full_name", Json.str "octo/repo")]) :=
  (C7_success_shape Blender.Server.init sceneEmpty extDummy reqRepoInfo
    (GitHub.Server.init none) ghExtDummy
    (Json.obj [("full_name", Json.str "octo/repo")]) sceneEmpty rfl).2 rfl

/-- C8: `tools/list` and `initialize` are idempotent in the Blender
server — repeating the request against the state left by the first call
returns an identical response (and identical serialized bytes), the
scene is untouched, and handling any request rewrites nothing in the
server state but `request_id` (the registry is immutable after
startup). -/
theorem C8_idempotent (s : Blender.Server) (w : Blender.Scene) (ext : Blender.Ext)
    (req : Request)
    (hm : req.method = "tools/list" ∨ req.method = "initialize") :
    (Blender.handle_request s w ext req).1
      = (Blender.handle_request (Blender.handle_request s w ext req).2.1
          (Blender.handle_request s w ext req).2.2 ext req).1
    ∧ (Blender.handle_request s w ext req).2.2 = w
    ∧ responseLine (Blender.handle_request s w ext req).1
      = responseLine (Blender.handle_request (Blender.handle_request s w ext req).2.1
          (Blender.handle_request s w ext req).2.2 ext req).1
    ∧ (∀ req2, (Blender.handle_request s w ext req2).2.1
        = { s with request_id := req2.id }) := by
  refine ⟨?_, ?_, ?_, fun req2 => blender_handle_server_state s w ext req2⟩ <;>
    rcases hm with hm | hm <;>
    simp [Blender.handle_request, hm]

/-- C8 witness: two consecutive `tools/list` calls with id `1` return
the same response. -/
theorem C8_idempotent_witness :
    (Blender.handle_request Blender.Server.init sceneEmpty extDummy reqToolsList).1
      = (Blender.handle_request
          (Blender.handle_request Blender.Server.init sceneEmpty extDummy reqToolsList).2.1
          (Blender.handle_request Blender.Server.init sceneEmpty extDummy reqToolsList).2.2
          extDummy reqToolsList).1 :=
  (C8_idempotent Blender.Server.init sceneEmpty extDummy reqToolsList (Or.inl rfl)).1

/-- C9: `safe_mode` is `True` at construction and no request changes it;
while it holds, `tools/call` of `execute_python` returns the success
envelope wrapping the fixed refusal mapping — for every oracle and every
argument list, so the submitted code is never run — and leaves the scene
unchanged. -/
theorem C9_safe_mode :
    Blender.Server.init.safe_mode = true
    ∧ (∀ s w ext req, ((Blender.handle_request s w ext req).2.1).safe_mode = s.safe_mode)
    ∧ (∀ s w ext req, s.safe_mode = true → req.method = "tools/call" →
        req.paramsName = "execute_python" →
        (Blender.handle_request s w ext req).1 = contentWrap req.id safeModeRefusal
        ∧ (Blender.handle_request s w ext req).2.2 = w) := by
  refine ⟨rfl, ?_, ?_⟩
  · intro s w ext req
    rw [blender_handle_server_state]
  · intro s w ext req hs hm hn
    constructor <;>
      simp [Blender.handle_request, Blender.call_tool, Blender.dispatchTool,
        Blender.execute_python, safeModeRefusal, hm, hn, hs]

/-- C9 witness: a concrete `execute_python` call on the fresh server is
answered with the refusal mapping. -/
theorem C9_safe_mode_witness :
    (Blender.handle_request Blender.Server.init sceneEmpty extDummy reqExecPython).1
      = contentWrap (Json.num 3) safeModeRefusal :=
  (C9_safe_mode.2.2 Blender.Server.init sceneEmpty extDummy reqExecPython
    rfl rfl rfl).1

/-- C10: with `GITHUB_TOKEN` unset or empty at construction, every
`tools/call` of `create_issue` is answered with the success envelope
wrapping `\x7berror: "GitHub token not configured"\x7d` — for every REST
oracle, so no network request is consulted — and no request ever
rewrites `github_token`. -/
theorem C10_no_token (envToken : Option String)
    (henv : envToken = none ∨ envToken = some "") :
    (∀ ext req, req.method = "tools/call" → req.paramsName = "create_issue" →
      (GitHub.handle_request (GitHub.Server.init envToken) ext req).1
        = contentWrap req.id noTokenResult)
    ∧ (∀ s ext req, ((GitHub.handle_request s ext req).2).github_token
        = s.github_token) := by
  constructor
  · intro ext req hm hn
    rcases henv with rfl | rfl <;>
      simp [GitHub.handle_request, GitHub.call_tool, GitHub.dispatchTool,
        GitHub.create_issue, GitHub.Server.init, noTokenResult, hm, hn]
  · intro s ext req
    rw [gh_handle_server_state]

/-- C10 witness: a concrete `create_issue` call on a tokenless server is
answered with the not-configured mapping. -/
theorem C10_no_token_witness :
    (GitHub.handle_request (GitHub.Server.init none) ghExtDummy reqCreateIssue).1
      = contentWrap (Json.num 4) noTokenResult :=
  (C10_no_token none (Or.inl rfl)).1 ghExtDummy reqCreateIssue rfl rfl

end MCPV
